import Mathlib

/-!
Verification of the OTP registration/verification flow
(`backend/api/apps/users/views/otp.py`) and the OAuth2 outbound-mail
credential flow (`backend/api/apps/users/backends/oauth2.py`) of the
BCA-Study-Nepal backend, as a shallow embedding in Lean.

Modelling conventions:
  * Django session storage is per-client; the handlers only ever touch the
    two keys `otp_{email}` and `registration_data_{email}`, so the session is
    embedded as a pair of maps from the email key to the stored payloads.
  * Timestamps are seconds as `Nat`; `timedelta(minutes=10)` is `600`.
  * Request payload values (`request.data.get(...)`) are JSON scalars: a
    string or a number, or absent (`Option PyVal`); Python truthiness and
    Python cross-type equality are modelled explicitly.
  * The durable user store is a list of records; `User.objects.create_user`
    raises on a unique-constraint violation (username and email are both
    unique columns on the `User` model).
  * External collaborators (random OTP digits, mail delivery outcome, the
    fresh access token produced by the OAuth token endpoint, the configured
    password-policy validators, DEBUG flag) enter as explicit parameters.
-/

namespace BCA

/-- Scalar value delivered by `request.data.get(...)`: a JSON string or a
JSON number. -/
inductive PyVal where
  | vStr (s : String)
  | vInt (n : Int)
deriving DecidableEq, Repr

/-- Python truthiness of a scalar: a string is truthy iff nonempty, a number
iff nonzero. -/
def PyVal.truthy : PyVal → Bool
  | .vStr s => !(s == "")
  | .vInt n => !(n == 0)

/-- Truthiness of an optional request field (`None` is falsy). -/
def reqTruthy : Option PyVal → Bool
  | none => false
  | some v => v.truthy

/-- Python `==` between a request scalar and a stored `str`: values of
different runtime types are never equal, strings compare by exact
character-for-character equality. -/
def pyEqStr : PyVal → String → Bool
  | .vStr s, t => s == t
  | .vInt _, _ => false

/-- Rendering of a scalar into the f-string session key (`str(email)`). -/
def PyVal.toKeyStr : PyVal → String
  | .vStr s => s
  | .vInt n => toString n

/-- Payload stored under `registration_data_{email}`. -/
structure PendingRegistration where
  username : String
  email : String
  password : String
  first_name : String
  last_name : String
  timestamp : Nat
deriving DecidableEq, Repr

/-- Payload stored under `otp_{email}`: the 6-digit code and its expiry
timestamp. -/
structure OtpData where
  code : String
  expiry : Nat
deriving DecidableEq, Repr

/-- The per-client session, restricted to the two key families the OTP
views use, each keyed by the email string. -/
structure Session where
  otp : String → Option OtpData
  registration : String → Option PendingRegistration

/-- Pointwise update of a keyed map (`session[k] = v` / `del session[k]`). -/
def upd {α : Type} (m : String → Option α) (k : String) (v : Option α) :
    String → Option α :=
  fun k2 => if k2 = k then v else m k2

/-- Durable user record as created by `User.objects.create_user`. -/
structure UserRecord where
  username : String
  email : String
  password : String
  first_name : String
  last_name : String
  is_active : Bool
  is_verified : Bool
deriving DecidableEq, Repr

/-- Membership test of `User.objects.filter(username=...).exists()`. -/
def usernameTaken (db : List UserRecord) (u : String) : Bool :=
  db.any (fun r => r.username == u)

/-- Membership test of `User.objects.filter(email=...).exists()`. -/
def emailTaken (db : List UserRecord) (e : String) : Bool :=
  db.any (fun r => r.email == e)

/-- The user-persistence collaborator `User.objects.create_user`: appends a
fresh record, or raises when the unique columns (username, email) collide
with an existing row. -/
def create_user (db : List UserRecord)
    (username email password first_name last_name : String)
    (is_active is_verified : Bool) :
    Except Unit (UserRecord × List UserRecord) :=
  if usernameTaken db username || emailTaken db email then .error ()
  else
    let u : UserRecord :=
      ⟨username, email, password, first_name, last_name, is_active, is_verified⟩
    .ok (u, db ++ [u])

/-- Six random digits joined into a string (`random.choices(string.digits, k=6)`). -/
def generate_otp (digits : Fin 6 → Fin 10) : String :=
  String.mk ((List.finRange 6).map (fun i => Char.ofNat (48 + (digits i).val)))

/-- Outcome of `VerifyOTPView.post`, one constructor per return branch. -/
inductive VerifyResult where
  | missingFields
  | noPendingCode
  | codeExpired
  | codeMismatch
  | regDataNotFound
  | created (user : UserRecord)
  | creationError
deriving DecidableEq, Repr

/-- HTTP status code attached to each `VerifyOTPView.post` branch. -/
def VerifyResult.httpStatus : VerifyResult → Nat
  | .missingFields => 400
  | .noPendingCode => 400
  | .codeExpired => 400
  | .codeMismatch => 400
  | .regDataNotFound => 400
  | .created _ => 201
  | .creationError => 500

/-- Full effect of one `VerifyOTPView.post` call: the response branch, the
session after the call, and the user store after the call. -/
structure VerifyOutcome where
  result : VerifyResult
  session : Session
  db : List UserRecord

/-- VerifyOTPView.post: checks field presence, code existence, expiry
(cleaning up both session entries when expired), exact string equality of
the submitted code, then creates the durable user (active and verified),
deletes both session entries and answers 201; a raise from `create_user`
is caught and answered as a 500 with the session untouched. -/
def verify (db : List UserRecord) (st : Session)
    (email otp : Option PyVal) (now : Nat) : VerifyOutcome :=
  if !(reqTruthy email) || !(reqTruthy otp) then ⟨.missingFields, st, db⟩
  else
    match email, otp with
    | some ev, some ov =>
      let e := ev.toKeyStr
      match st.otp e with
      | none => ⟨.noPendingCode, st, db⟩
      | some d =>
        if now > d.expiry then
          ⟨.codeExpired,
           ⟨upd st.otp e none, upd st.registration e none⟩, db⟩
        else if !(pyEqStr ov d.code) then ⟨.codeMismatch, st, db⟩
        else
          match st.registration e with
          | none => ⟨.regDataNotFound, st, db⟩
          | some r =>
            match create_user db r.username r.email r.password
                r.first_name r.last_name true true with
            | .error _ => ⟨.creationError, st, db⟩
            | .ok (u, db2) =>
              ⟨.created u,
               ⟨upd st.otp e none, upd st.registration e none⟩, db2⟩
    | _, _ => ⟨.missingFields, st, db⟩

/-- Outcome of `ResendOTPView.post`, one constructor per return branch. -/
inductive ResendResult where
  | missingEmail
  | noPending
  | success
  | successDebugOtp (otp : String)
  | mailError
deriving DecidableEq, Repr

/-- ResendOTPView.post: requires a pending registration, then overwrites
`otp_{email}` with a fresh code and a fresh `now + 600` expiry and saves the
session before attempting mail; a mail failure yields a debug success in
DEBUG mode and a 500 otherwise, in both cases after the new code was
already stored. -/
def resend (st : Session) (email : Option PyVal) (newOtp : String)
    (now : Nat) (mailOk debug : Bool) : ResendResult × Session :=
  match email with
  | none => (.missingEmail, st)
  | some ev =>
    if !ev.truthy then (.missingEmail, st)
    else
      let e := ev.toKeyStr
      match st.registration e with
      | none => (.noPending, st)
      | some _ =>
        let st2 : Session :=
          ⟨upd st.otp e (some ⟨newOtp, now + 600⟩), st.registration⟩
        if mailOk then (.success, st2)
        else if debug then (.successDebugOtp newOtp, st2)
        else (.mailError, st2)

/-- Outcome of `CancelRegistrationView.post`. -/
inductive CancelResult where
  | missingEmail
  | success
deriving DecidableEq, Repr

/-- CancelRegistrationView.post: deletes whichever of the two session
entries exist for the email and always answers 200 success. -/
def cancel (st : Session) (email : Option PyVal) : CancelResult × Session :=
  match email with
  | none => (.missingEmail, st)
  | some ev =>
    if !ev.truthy then (.missingEmail, st)
    else
      let e := ev.toKeyStr
      (.success, ⟨upd st.otp e none, upd st.registration e none⟩)

/-- Input fields of `RegisterView.post` / `UserRegistrationSerializer`. -/
structure RegisterInput where
  username : String
  email : String
  password : String
  confirm_password : String
  first_name : String
  last_name : String
deriving DecidableEq, Repr

/-- UserRegistrationSerializer.is_valid: the required char fields are
present and non-blank, the password passes the configured policy
validators (an external collaborator, passed as a predicate), and the
password equals `confirm_password`. -/
def serializerValid (passwordOk : String → Bool) (inp : RegisterInput) : Bool :=
  !(inp.username == "") && !(inp.email == "") && !(inp.password == "")
    && !(inp.confirm_password == "")
    && passwordOk inp.password && (inp.password == inp.confirm_password)

/-- Outcome of `RegisterView.post`, one constructor per return branch. -/
inductive RegisterResult where
  | usernameTaken
  | emailTaken
  | validationFailed
  | success (sessionId : String)
  | successDebugOtp (otp : String) (sessionId : String)
  | mailError
deriving DecidableEq, Repr

/-- HTTP status code attached to each `RegisterView.post` branch. -/
def RegisterResult.httpStatus : RegisterResult → Nat
  | .usernameTaken => 400
  | .emailTaken => 400
  | .validationFailed => 400
  | .success _ => 200
  | .successDebugOtp _ _ => 200
  | .mailError => 500

/-- True exactly on the branches that answer `status: success`. -/
def RegisterResult.reportsSuccess : RegisterResult → Bool
  | .success _ => true
  | .successDebugOtp _ _ => true
  | _ => false

/-- RegisterView.post: rejects a taken username, then a taken email, then
runs the serializer; on success stores the pending registration and a
fresh code with `now + 600` expiry in the session (saved before mail is
attempted), then sends the code by mail. A mail failure leaves the session
entries in place and answers a 200 success exposing the code when DEBUG is
on, and a 500 error otherwise. -/
def register (passwordOk : String → Bool) (db : List UserRecord)
    (st : Session) (inp : RegisterInput) (otp : String) (now : Nat)
    (mailOk debug : Bool) (sessionId : String) :
    RegisterResult × Session :=
  if !(inp.username == "") && usernameTaken db inp.username then
    (.usernameTaken, st)
  else if !(inp.email == "") && emailTaken db inp.email then
    (.emailTaken, st)
  else if !(serializerValid passwordOk inp) then (.validationFailed, st)
  else
    let e := inp.email
    let st2 : Session :=
      ⟨upd st.otp e (some ⟨otp, now + 600⟩),
       upd st.registration e
         (some ⟨inp.username, e, inp.password, inp.first_name,
                inp.last_name, now⟩)⟩
    if mailOk then (.success sessionId, st2)
    else if debug then (.successDebugOtp otp sessionId, st2)
    else (.mailError, st2)

/-!
OAuth2 outbound-mail credential flow
(`backend/api/apps/users/backends/oauth2.py`).
-/

/-- OAuth2 credential as held by the google-auth `Credentials` object and
by both persisted formats. An absent refresh token is the empty string
(falsy in Python). -/
structure Credentials where
  token : Option String
  refresh_token : String
  token_uri : String
  client_id : String
  client_secret : String
  scopes : List String
  expired : Bool
deriving DecidableEq, Repr

/-- Validity flag of the google-auth `Credentials` object: a token is
present and not expired. -/
def Credentials.valid (c : Credentials) : Bool :=
  c.token.isSome && !c.expired

/-- Effect of `Credentials.refresh(Request())`: the token endpoint grants a
fresh access token and the credential is no longer expired. -/
def Credentials.refreshed (c : Credentials) (freshToken : String) :
    Credentials :=
  { c with token := some freshToken, expired := false }

/-- State of one on-disk credential file: missing, unreadable (the load
raises), or holding a credential. -/
inductive FileState where
  | absent
  | corrupt
  | stored (c : Credentials)
deriving DecidableEq, Repr

/-- The two persisted formats plus the migration backup file. -/
structure CredStore where
  pickleFile : FileState
  jsonFile : FileState
  backupFile : FileState
deriving DecidableEq, Repr

/-- Settings bits consulted by the backend: whether `GMAIL_TOKEN_PATH` is
configured and whether `ENABLE_CREDENTIALS_MIGRATION` is on (the shipped
`core/settings.py` sets both). -/
structure OAuthSettings where
  hasGmailTokenPath : Bool
  enableMigration : Bool
deriving DecidableEq, Repr

/-- OAuth2EmailBackend._save_credentials: always writes the pickle file,
and additionally writes the JSON file when `GMAIL_TOKEN_PATH` is
configured. -/
def save_credentials (cfg : OAuthSettings) (c : Credentials)
    (fs : CredStore) : CredStore :=
  let fs1 := { fs with pickleFile := .stored c }
  if cfg.hasGmailTokenPath then { fs1 with jsonFile := .stored c } else fs1

/-- OAuth2EmailBackend._migrate_credentials: copies the pickle file to its
backup, then saves the credential in both formats (the restore-from-backup
branch only fires when a write raises, and writes are modelled as
succeeding). -/
def migrate_credentials (cfg : OAuthSettings) (c : Credentials)
    (fs : CredStore) : CredStore :=
  save_credentials cfg c { fs with backupFile := fs.pickleFile }

/-- Loading phase of `_load_or_refresh_credentials`: the pickle format is
tried first (running the feature-flagged migration when it loads), and the
JSON format is consulted only when the pickle gave nothing and
`GMAIL_TOKEN_PATH` is configured. Returns the loaded credential, if any,
and the store after a possible migration. -/
def loadPhase (cfg : OAuthSettings) (fs : CredStore) :
    Option Credentials × CredStore :=
  let picked : Option Credentials × CredStore :=
    match fs.pickleFile with
    | .stored c =>
      if cfg.enableMigration && cfg.hasGmailTokenPath then
        (some c, migrate_credentials cfg c fs)
      else (some c, fs)
    | .corrupt => (none, fs)
    | .absent => (none, fs)
  match picked with
  | (some c, fs1) => (some c, fs1)
  | (none, fs1) =>
    if cfg.hasGmailTokenPath then
      match fs1.jsonFile with
      | .stored c => (some c, fs1)
      | _ => (none, fs1)
    else (none, fs1)

/-- OAuth2EmailBackend._load_or_refresh_credentials: after the loading
phase, a valid credential is kept as is; an invalid one with an expired
flag and a non-empty refresh token is refreshed against the token endpoint
and persisted in both formats; otherwise the backend raises, demanding the
interactive consent flow. -/
def load_or_refresh_credentials (cfg : OAuthSettings) (fs : CredStore)
    (freshToken : String) : Except String (Credentials × CredStore) :=
  match loadPhase cfg fs with
  | (some c, fs1) =>
    if c.valid then .ok (c, fs1)
    else if c.expired && !(c.refresh_token == "") then
      let c2 := c.refreshed freshToken
      .ok (c2, save_credentials cfg c2 fs1)
    else .error "Need to authorize Gmail access"
  | (none, _) => .error "Need to authorize Gmail access"

/-!
Gmail send flow (`OAuth2EmailBackend.send_messages`).
-/

/-- Django email message as consumed by `send_messages`: body, recipients,
sender, subject and the list of (content, mimetype) alternatives. -/
structure EmailMessage where
  body : String
  to_addrs : List String
  from_email : String
  subject : String
  alternatives : List (String × String)
deriving DecidableEq, Repr

/-- MIME envelope built for one message. -/
structure MimeMessage where
  content : String
  mimeType : String
  to_header : String
  sender : String
  subject : String
deriving DecidableEq, Repr

/-- First alternative whose mimetype is `text/html`, if any. -/
def findHtmlAlternative : List (String × String) → Option String
  | [] => none
  | (content, mt) :: rest =>
    if mt == "text/html" then some content else findHtmlAlternative rest

/-- Envelope construction of `send_messages`: plain-text body by default,
replaced by the first `text/html` alternative when one exists. -/
def buildEnvelope (m : EmailMessage) : MimeMessage :=
  match findHtmlAlternative m.alternatives with
  | some html =>
    ⟨html, "text/html", String.intercalate ", " m.to_addrs,
     m.from_email, m.subject⟩
  | none =>
    ⟨m.body, "text/plain", String.intercalate ", " m.to_addrs,
     m.from_email, m.subject⟩

/-- Per-message loop of `send_messages`. Each message is paired with the
outcome of its provider API call; a success increments the count, a
failure is swallowed under fail-silently and aborts the call otherwise. -/
def sendLoop (failSilently : Bool) :
    List (EmailMessage × Bool) → Nat → Except Unit Nat
  | [], acc => .ok acc
  | (_, ok) :: rest, acc =>
    if ok then sendLoop failSilently rest (acc + 1)
    else if failSilently then sendLoop failSilently rest acc
    else .error ()

/-- OAuth2EmailBackend.send_messages: an empty list sends nothing; a
failure to build the service client yields 0 under fail-silently and
propagates otherwise; then each message is attempted in order through the
per-message loop, whose propagated failure the outer handler re-raises
unless fail-silently is configured. -/
def send_messages (failSilently buildOk : Bool)
    (msgs : List (EmailMessage × Bool)) : Except Unit Nat :=
  if msgs.isEmpty then .ok 0
  else if !buildOk then (if failSilently then .ok 0 else .error ())
  else
    match sendLoop failSilently msgs 0 with
    | .ok n => .ok n
    | .error e => if failSilently then .ok 0 else .error e

/-!
Sample inputs used by the concrete witnesses and the counterexample below.
-/

def emptySession : Session := ⟨fun _ => none, fun _ => none⟩

def sampleInput : RegisterInput :=
  ⟨"alice", "a@x.com", "Abc12345", "Abc12345", "A", "L"⟩

def sampleReg : PendingRegistration := ⟨"alice", "a@x.com", "Abc12345", "A", "L", 0⟩

def sampleOtp : OtpData := ⟨"123456", 600⟩

def sampleSession : Session :=
  ⟨upd (fun _ => none) "a@x.com" (some sampleOtp),
   upd (fun _ => none) "a@x.com" (some sampleReg)⟩

def dbWithAlice : List UserRecord :=
  [⟨"alice", "other@x.com", "pw", "", "", true, true⟩]

def credExpiredWithRefresh : Credentials :=
  ⟨some "tok", "rt", "uri", "cid", "cs", ["mailscope"], true⟩

def credStoreSample : CredStore := ⟨.stored credExpiredWithRefresh, .absent, .absent⟩

def credStoreMigrated : CredStore :=
  migrate_credentials ⟨true, true⟩ credExpiredWithRefresh credStoreSample

def credExpiredNoRefresh : Credentials :=
  ⟨some "tok", "", "uri", "cid", "cs", ["mailscope"], true⟩

def msgA : EmailMessage := ⟨"hello", ["r@x.com"], "s@x.com", "subject", []⟩

/-- Claim C1 (exactly-once code consumption): for a pending registration with a stored, unexpired code, the first verify call with the matching code creates exactly one durable user record, active and verified, deletes both session entries and answers 201; an immediate second verify call with the same code fails with the no-pending-registration error. -/
theorem verify_exactly_once_consumption
    (db : List UserRecord) (st : Session) (e : String) (d : OtpData)
    (r : PendingRegistration) (now : Nat)
    (he : e ≠ "") (hc : d.code ≠ "")
    (hotp : st.otp e = some d) (hreg : st.registration e = some r)
    (hexp : now ≤ d.expiry)
    (hu : usernameTaken db r.username = false)
    (hm : emailTaken db r.email = false) :
    (∃ u : UserRecord,
        (verify db st (some (.vStr e)) (some (.vStr d.code)) now).result = .created u
          ∧ u.is_active = true ∧ u.is_verified = true
          ∧ (verify db st (some (.vStr e)) (some (.vStr d.code)) now).db = db ++ [u])
      ∧ (verify db st (some (.vStr e)) (some (.vStr d.code)) now).result.httpStatus = 201
      ∧ (verify db st (some (.vStr e)) (some (.vStr d.code)) now).session.otp e = none
      ∧ (verify db st (some (.vStr e)) (some (.vStr d.code)) now).session.registration e = none
      ∧ (verify (verify db st (some (.vStr e)) (some (.vStr d.code)) now).db
            (verify db st (some (.vStr e)) (some (.vStr d.code)) now).session
            (some (.vStr e)) (some (.vStr d.code)) now).result = .noPendingCode := by
  have he2 : (e == "") = false := beq_eq_false_iff_ne.mpr he
  have hc2 : (d.code == "") = false := beq_eq_false_iff_ne.mpr hc
  have hnx : ¬ (now > d.expiry) := Nat.not_lt.mpr hexp
  have hv : verify db st (some (.vStr e)) (some (.vStr d.code)) now =
      ⟨.created ⟨r.username, r.email, r.password, r.first_name, r.last_name, true, true⟩,
       ⟨upd st.otp e none, upd st.registration e none⟩,
       db ++ [⟨r.username, r.email, r.password, r.first_name, r.last_name, true, true⟩]⟩ := by
    simp only [verify, reqTruthy, PyVal.truthy, PyVal.toKeyStr, he2, hc2, Bool.not_false,
      Bool.or_self, Bool.false_eq_true, if_false, hotp, hreg, if_neg hnx, pyEqStr,
      beq_self_eq_true, Bool.not_true, create_user, hu, hm, Bool.or_false, ite_false]
  refine ⟨⟨⟨r.username, r.email, r.password, r.first_name, r.last_name, true, true⟩,
      by rw [hv], rfl, rfl, by rw [hv]⟩, by rw [hv]; rfl, ?_, ?_, ?_⟩
  · rw [hv]; simp [upd]
  · rw [hv]; simp [upd]
  · rw [hv]
    simp [verify, reqTruthy, PyVal.truthy, PyVal.toKeyStr, he2, hc2, upd]

/-- Concrete instantiation of the C1 theorem at a sample session and an empty user store. -/
theorem verify_exactly_once_consumption_witness :
    (∃ u : UserRecord,
        (verify [] sampleSession (some (.vStr "a@x.com"))
            (some (.vStr sampleOtp.code)) 0).result = .created u
          ∧ u.is_active = true ∧ u.is_verified = true
          ∧ (verify [] sampleSession (some (.vStr "a@x.com"))
              (some (.vStr sampleOtp.code)) 0).db = [] ++ [u])
      ∧ (verify [] sampleSession (some (.vStr "a@x.com"))
          (some (.vStr sampleOtp.code)) 0).result.httpStatus = 201
      ∧ (verify [] sampleSession (some (.vStr "a@x.com"))
          (some (.vStr sampleOtp.code)) 0).session.otp "a@x.com" = none
      ∧ (verify [] sampleSession (some (.vStr "a@x.com"))
          (some (.vStr sampleOtp.code)) 0).session.registration "a@x.com" = none
      ∧ (verify (verify [] sampleSession (some (.vStr "a@x.com"))
              (some (.vStr sampleOtp.code)) 0).db
            (verify [] sampleSession (some (.vStr "a@x.com"))
              (some (.vStr sampleOtp.code)) 0).session
            (some (.vStr "a@x.com")) (some (.vStr sampleOtp.code)) 0).result
          = .noPendingCode :=
  verify_exactly_once_consumption [] sampleSession "a@x.com" sampleOtp sampleReg 0
    (by decide) (by decide) rfl rfl (by decide) rfl rfl

/-- Claim C2 (expired-code cleanup): verify called strictly after the expiry of the stored code answers the code-expired error and deletes both the code and the pending registration, so every subsequent verify for the same email answers the no-pending-registration error. -/
theorem verify_expired_cleanup
    (db : List UserRecord) (st : Session) (e : String) (d : OtpData)
    (now : Nat) (ov : PyVal)
    (he : e ≠ "") (hov : ov.truthy = true)
    (hotp : st.otp e = some d)
    (hexp : now > d.expiry) :
    (verify db st (some (.vStr e)) (some ov) now).result = .codeExpired
      ∧ (verify db st (some (.vStr e)) (some ov) now).session.otp e = none
      ∧ (verify db st (some (.vStr e)) (some ov) now).session.registration e = none
      ∧ (∀ (ov2 : PyVal) (t2 : Nat), ov2.truthy = true →
          (verify db (verify db st (some (.vStr e)) (some ov) now).session
              (some (.vStr e)) (some ov2) t2).result = .noPendingCode) := by
  have he2 : (e == "") = false := beq_eq_false_iff_ne.mpr he
  have hre : reqTruthy (some (PyVal.vStr e)) = true := by
    simp [reqTruthy, PyVal.truthy, he2]
  have hro : reqTruthy (some ov) = true := hov
  have hv : verify db st (some (.vStr e)) (some ov) now =
      ⟨.codeExpired, ⟨upd st.otp e none, upd st.registration e none⟩, db⟩ := by
    simp [verify, hre, hro, PyVal.toKeyStr, hotp, if_pos hexp]
  refine ⟨by rw [hv], by rw [hv]; simp [upd], by rw [hv]; simp [upd], ?_⟩
  intro ov2 t2 hov2
  have hro2 : reqTruthy (some ov2) = true := hov2
  rw [hv]
  simp [verify, hre, hro2, PyVal.toKeyStr, upd]

/-- Concrete instantiation of the C2 theorem at the sample session, one second past expiry. -/
theorem verify_expired_cleanup_witness :
    (verify [] sampleSession (some (.vStr "a@x.com"))
        (some (.vStr "123456")) 601).result = .codeExpired
      ∧ (verify [] sampleSession (some (.vStr "a@x.com"))
          (some (.vStr "123456")) 601).session.otp "a@x.com" = none
      ∧ (verify [] sampleSession (some (.vStr "a@x.com"))
          (some (.vStr "123456")) 601).session.registration "a@x.com" = none
      ∧ (∀ (ov2 : PyVal) (t2 : Nat), ov2.truthy = true →
          (verify [] (verify [] sampleSession (some (.vStr "a@x.com"))
                (some (.vStr "123456")) 601).session
              (some (.vStr "a@x.com")) (some ov2) t2).result = .noPendingCode) :=
  verify_expired_cleanup [] sampleSession "a@x.com" sampleOtp 601 (.vStr "123456")
    (by decide) (by decide) rfl (by decide)

/-- Claim C3, counterexample: at a concrete registration request that passes the uniqueness and validation checks, with mail delivery failing and DEBUG off, RegisterView.post answers the 500 mailError branch, which does not report success. -/
theorem register_mail_failure_counterexample :
    serializerValid (fun _ => true) sampleInput = true
      ∧ usernameTaken [] sampleInput.username = false
      ∧ emailTaken [] sampleInput.email = false
      ∧ (register (fun _ => true) [] emptySession sampleInput "123456" 0
            false false "sid").1 = .mailError
      ∧ RegisterResult.reportsSuccess .mailError = false
      ∧ RegisterResult.httpStatus .mailError = 500 := by
  refine ⟨by decide, by decide, by decide, ?_, by decide, by decide⟩
  rfl

/-- Claim C3 (amended): for every begin-registration request passing the uniqueness and validation checks, a mail-delivery failure leaves the pending registration and the code stored in the session; the response reports success while flagging the mail failure only when DEBUG is on, and is a 500 error otherwise, with the session entries retained either way. -/
theorem register_mail_failure_keeps_session
    (passwordOk : String → Bool) (db : List UserRecord) (st : Session)
    (inp : RegisterInput) (otp : String) (now : Nat) (debug : Bool)
    (sid : String)
    (hu : usernameTaken db inp.username = false)
    (hm : emailTaken db inp.email = false)
    (hval : serializerValid passwordOk inp = true) :
    (register passwordOk db st inp otp now false debug sid).2.otp inp.email
        = some ⟨otp, now + 600⟩
      ∧ (register passwordOk db st inp otp now false debug sid).2.registration inp.email
        = some ⟨inp.username, inp.email, inp.password, inp.first_name,
                inp.last_name, now⟩
      ∧ (debug = true →
          (register passwordOk db st inp otp now false debug sid).1
              = .successDebugOtp otp sid
            ∧ RegisterResult.reportsSuccess (.successDebugOtp otp sid) = true)
      ∧ (debug = false →
          (register passwordOk db st inp otp now false debug sid).1 = .mailError
            ∧ RegisterResult.httpStatus .mailError = 500) := by
  have hr : register passwordOk db st inp otp now false debug sid =
      (if debug then .successDebugOtp otp sid else .mailError,
       ⟨upd st.otp inp.email (some ⟨otp, now + 600⟩),
        upd st.registration inp.email
          (some ⟨inp.username, inp.email, inp.password, inp.first_name,
                 inp.last_name, now⟩)⟩) := by
    rcases debug with _ | _ <;> simp [register, hu, hm, hval]
  refine ⟨by rw [hr]; simp [upd], by rw [hr]; simp [upd], ?_, ?_⟩
  · intro hd; subst hd; rw [hr]; exact ⟨rfl, rfl⟩
  · intro hd; subst hd; rw [hr]; exact ⟨rfl, rfl⟩

/-- Concrete instantiation of the amended C3 theorem in DEBUG mode. -/
theorem register_mail_failure_keeps_session_witness :
    (register (fun _ => true) [] emptySession sampleInput "654321" 0 false true
        "sid").2.otp sampleInput.email = some ⟨"654321", 0 + 600⟩
      ∧ (register (fun _ => true) [] emptySession sampleInput "654321" 0 false true
          "sid").2.registration sampleInput.email
        = some ⟨sampleInput.username, sampleInput.email, sampleInput.password,
                sampleInput.first_name, sampleInput.last_name, 0⟩
      ∧ (true = true →
          (register (fun _ => true) [] emptySession sampleInput "654321" 0 false
              true "sid").1 = .successDebugOtp "654321" "sid"
            ∧ RegisterResult.reportsSuccess (.successDebugOtp "654321" "sid")
              = true)
      ∧ (true = false →
          (register (fun _ => true) [] emptySession sampleInput "654321" 0 false
              true "sid").1 = .mailError
            ∧ RegisterResult.httpStatus .mailError = 500) :=
  register_mail_failure_keeps_session (fun _ => true) [] emptySession sampleInput
    "654321" 0 true "sid" (by decide) (by decide) (by decide)

/-- Claim C4 (credential refresh on expiry): a persisted credential that loads as expired with a non-empty refresh token is refreshed against the token endpoint on load, yielding a non-expired, valid credential that is persisted to both storage formats, the legacy pickle and the structured JSON. -/
theorem load_refreshes_expired_credential
    (cfg : OAuthSettings) (fs fs1 : CredStore) (c : Credentials)
    (freshToken : String)
    (hload : loadPhase cfg fs = (some c, fs1))
    (hexp : c.expired = true)
    (hrt : c.refresh_token ≠ "")
    (hpath : cfg.hasGmailTokenPath = true) :
    load_or_refresh_credentials cfg fs freshToken
        = .ok (c.refreshed freshToken,
               save_credentials cfg (c.refreshed freshToken) fs1)
      ∧ (c.refreshed freshToken).expired = false
      ∧ (c.refreshed freshToken).valid = true
      ∧ (save_credentials cfg (c.refreshed freshToken) fs1).pickleFile
          = .stored (c.refreshed freshToken)
      ∧ (save_credentials cfg (c.refreshed freshToken) fs1).jsonFile
          = .stored (c.refreshed freshToken) := by
  have hrt2 : (c.refresh_token == "") = false := beq_eq_false_iff_ne.mpr hrt
  have hcv : c.valid = false := by simp [Credentials.valid, hexp]
  refine ⟨?_, rfl, rfl, ?_, ?_⟩
  · simp [load_or_refresh_credentials, hload, hcv, hexp, hrt2]
  · simp only [save_credentials]
    split <;> rfl
  · simp [save_credentials, hpath]

/-- Concrete instantiation of the C4 theorem at a pickle-stored expired credential under the shipped settings flags. -/
theorem load_refreshes_expired_credential_witness :
    load_or_refresh_credentials ⟨true, true⟩ credStoreSample "freshTok"
        = .ok (credExpiredWithRefresh.refreshed "freshTok",
               save_credentials ⟨true, true⟩
                 (credExpiredWithRefresh.refreshed "freshTok") credStoreMigrated)
      ∧ (credExpiredWithRefresh.refreshed "freshTok").expired = false
      ∧ (credExpiredWithRefresh.refreshed "freshTok").valid = true
      ∧ (save_credentials ⟨true, true⟩
          (credExpiredWithRefresh.refreshed "freshTok") credStoreMigrated).pickleFile
        = .stored (credExpiredWithRefresh.refreshed "freshTok")
      ∧ (save_credentials ⟨true, true⟩
          (credExpiredWithRefresh.refreshed "freshTok") credStoreMigrated).jsonFile
        = .stored (credExpiredWithRefresh.refreshed "freshTok") :=
  load_refreshes_expired_credential ⟨true, true⟩ credStoreSample credStoreMigrated
    credExpiredWithRefresh "freshTok" rfl rfl (by decide) rfl

/-- Claim C5 (consent required without a refresh path): when no credential loads at all, or the loaded credential is invalid with an empty refresh token, the load raises the consent-required error instead of producing a credential. -/
theorem load_requires_consent_without_refresh_path
    (cfg : OAuthSettings) (fs : CredStore) (freshToken : String) :
    ((loadPhase cfg fs).1 = none →
        load_or_refresh_credentials cfg fs freshToken
          = .error "Need to authorize Gmail access")
      ∧ (∀ (c : Credentials) (fs1 : CredStore),
          loadPhase cfg fs = (some c, fs1) → c.valid = false →
            c.refresh_token = "" →
            load_or_refresh_credentials cfg fs freshToken
              = .error "Need to authorize Gmail access") := by
  constructor
  · intro h
    unfold load_or_refresh_credentials
    rcases hp : loadPhase cfg fs with ⟨o, fs1⟩
    rw [hp] at h
    simp only at h
    subst h
    rfl
  · intro c fs1 hp hcv hrt
    simp [load_or_refresh_credentials, hp, hcv, hrt]

/-- Concrete instantiation of the C5 theorem at an empty store and at a stored expired credential without a refresh token. -/
theorem load_requires_consent_witness :
    load_or_refresh_credentials ⟨true, true⟩ ⟨.absent, .absent, .absent⟩ "t"
        = .error "Need to authorize Gmail access"
      ∧ load_or_refresh_credentials ⟨true, true⟩
          ⟨.stored credExpiredNoRefresh, .absent, .absent⟩ "t"
        = .error "Need to authorize Gmail access" :=
  ⟨(load_requires_consent_without_refresh_path ⟨true, true⟩
      ⟨.absent, .absent, .absent⟩ "t").1 rfl,
   (load_requires_consent_without_refresh_path ⟨true, true⟩
      ⟨.stored credExpiredNoRefresh, .absent, .absent⟩ "t").2
     credExpiredNoRefresh
     (migrate_credentials ⟨true, true⟩ credExpiredNoRefresh
       ⟨.stored credExpiredNoRefresh, .absent, .absent⟩) rfl rfl rfl⟩

/-- Per-message loop under fail-silently: every failure is swallowed and the final count is the number of provider successes. -/
theorem sendLoop_silent (msgs : List (EmailMessage × Bool)) (acc : Nat) :
    sendLoop true msgs acc = .ok (acc + msgs.countP (fun p => p.2)) := by
  induction msgs generalizing acc with
  | nil => simp [sendLoop]
  | cons p rest ih =>
    rcases p with ⟨m, ok⟩
    rcases ok with _ | _
    · simp [sendLoop, ih, List.countP_cons]
    · simp [sendLoop, ih, List.countP_cons]
      omega

/-- Per-message loop without fail-silently on an all-successful batch: every message counts. -/
theorem sendLoop_strict_all_ok (msgs : List (EmailMessage × Bool)) (acc : Nat)
    (h : ∀ p ∈ msgs, p.2 = true) :
    sendLoop false msgs acc = .ok (acc + msgs.length) := by
  induction msgs generalizing acc with
  | nil => simp [sendLoop]
  | cons p rest ih =>
    have hp := h p (by simp)
    rcases p with ⟨m, ok⟩
    simp only at hp
    subst hp
    have hrec := ih (acc + 1) (fun q hq => h q (List.mem_cons_of_mem _ hq))
    have harith : acc + 1 + rest.length = acc + (rest.length + 1) := by omega
    simp [sendLoop, hrec, harith]

/-- Per-message loop without fail-silently with at least one failure: the call aborts with the propagated error. -/
theorem sendLoop_strict_fails (msgs : List (EmailMessage × Bool)) (acc : Nat)
    (h : ∃ p ∈ msgs, p.2 = false) :
    sendLoop false msgs acc = .error () := by
  induction msgs generalizing acc with
  | nil => simp at h
  | cons p rest ih =>
    rcases p with ⟨m, ok⟩
    rcases ok with _ | _
    · simp [sendLoop]
    · rcases h with ⟨q, hq, hq2⟩
      simp only [List.mem_cons] at hq
      rcases hq with hq | hq
      · subst hq
        simp at hq2
      · simp only [sendLoop, if_pos rfl]
        exact ih _ ⟨q, hq, hq2⟩

/-- Claim C6 (send count and fail-silently semantics): send_messages returns the number of messages whose provider call succeeded; under fail-silently each per-message failure is swallowed without incrementing the count while later messages are still attempted, and otherwise the first failure aborts the whole call and propagates the error. -/
theorem send_messages_count_and_fail_silently
    (msgs : List (EmailMessage × Bool)) :
    send_messages true true msgs = .ok (msgs.countP (fun p => p.2))
      ∧ ((∀ p ∈ msgs, p.2 = true) →
          send_messages false true msgs = .ok msgs.length)
      ∧ ((∃ p ∈ msgs, p.2 = false) →
          send_messages false true msgs = .error ()) := by
  rcases msgs with _ | ⟨p, rest⟩
  · refine ⟨by simp [send_messages], by simp [send_messages], ?_⟩
    intro h
    simp at h
  · refine ⟨?_, ?_, ?_⟩
    · have hs := sendLoop_silent (p :: rest) 0
      simp [send_messages, hs]
    · intro h
      have hs := sendLoop_strict_all_ok (p :: rest) 0 h
      simp [send_messages, hs]
    · intro h
      have hs := sendLoop_strict_fails (p :: rest) 0 h
      simp [send_messages, hs]

/-- Concrete instantiation of the C6 theorem on a three-message batch whose middle send fails. -/
theorem send_messages_count_witness :
    send_messages true true [(msgA, true), (msgA, false), (msgA, true)] = .ok 2
      ∧ send_messages false true [(msgA, true), (msgA, false), (msgA, true)]
        = .error () :=
  ⟨((send_messages_count_and_fail_silently
      [(msgA, true), (msgA, false), (msgA, true)]).1).trans rfl,
   (send_messages_count_and_fail_silently
      [(msgA, true), (msgA, false), (msgA, true)]).2.2
     ⟨(msgA, false), by simp, rfl⟩⟩

/-- Claim C7 (resend replaces rather than appends): after resend, the session holds exactly the fresh code with a fresh ten-minute expiry for the email; the old code no longer verifies even within its own validity window, and only the newest code verifies. -/
theorem resend_replaces_code
    (db : List UserRecord) (st : Session) (e oldCode newOtp : String)
    (r : PendingRegistration) (now : Nat) (mailOk debug : Bool)
    (he : e ≠ "") (hn : newOtp ≠ "") (ho : oldCode ≠ "")
    (hreg : st.registration e = some r)
    (hne : oldCode ≠ newOtp) :
    (resend st (some (.vStr e)) newOtp now mailOk debug).2.otp e
        = some ⟨newOtp, now + 600⟩
      ∧ (∀ t2 : Nat, t2 ≤ now + 600 →
          (verify db (resend st (some (.vStr e)) newOtp now mailOk debug).2
              (some (.vStr e)) (some (.vStr oldCode)) t2).result = .codeMismatch)
      ∧ (usernameTaken db r.username = false → emailTaken db r.email = false →
          ∀ t2 : Nat, t2 ≤ now + 600 →
            ∃ u : UserRecord,
              (verify db (resend st (some (.vStr e)) newOtp now mailOk debug).2
                  (some (.vStr e)) (some (.vStr newOtp)) t2).result = .created u) := by
  have he2 : (e == "") = false := beq_eq_false_iff_ne.mpr he
  have hn2 : (newOtp == "") = false := beq_eq_false_iff_ne.mpr hn
  have ho2 : (oldCode == "") = false := beq_eq_false_iff_ne.mpr ho
  have hne2 : (oldCode == newOtp) = false := beq_eq_false_iff_ne.mpr hne
  have hr : (resend st (some (.vStr e)) newOtp now mailOk debug).2 =
      ⟨upd st.otp e (some ⟨newOtp, now + 600⟩), st.registration⟩ := by
    simp only [resend, PyVal.truthy, PyVal.toKeyStr, he2, Bool.not_false, if_false, hreg]
    rcases mailOk with _ | _ <;> rcases debug with _ | _ <;> simp
  refine ⟨by rw [hr]; simp [upd], ?_, ?_⟩
  · intro t2 ht2
    have hnx : ¬ (t2 > now + 600) := Nat.not_lt.mpr ht2
    rw [hr]
    simp [verify, reqTruthy, PyVal.truthy, PyVal.toKeyStr, he2, ho2, upd, if_neg hnx,
      pyEqStr, hne2]
  · intro hu hm t2 ht2
    have hnx : ¬ (t2 > now + 600) := Nat.not_lt.mpr ht2
    rw [hr]
    refine ⟨⟨r.username, r.email, r.password, r.first_name, r.last_name, true, true⟩, ?_⟩
    simp [verify, reqTruthy, PyVal.truthy, PyVal.toKeyStr, he2, hn2, upd, if_neg hnx,
      pyEqStr, hreg, create_user, hu, hm]

/-- Concrete instantiation of the C7 theorem at the sample session. -/
theorem resend_replaces_code_witness :
    (resend sampleSession (some (.vStr "a@x.com")) "999999" 0 true false).2.otp
        "a@x.com" = some ⟨"999999", 0 + 600⟩
      ∧ (∀ t2 : Nat, t2 ≤ 0 + 600 →
          (verify [] (resend sampleSession (some (.vStr "a@x.com")) "999999" 0
              true false).2
              (some (.vStr "a@x.com")) (some (.vStr "123456")) t2).result
            = .codeMismatch)
      ∧ (usernameTaken [] sampleReg.username = false →
          emailTaken [] sampleReg.email = false →
          ∀ t2 : Nat, t2 ≤ 0 + 600 →
            ∃ u : UserRecord,
              (verify [] (resend sampleSession (some (.vStr "a@x.com")) "999999" 0
                  true false).2
                  (some (.vStr "a@x.com")) (some (.vStr "999999")) t2).result
                = .created u) :=
  resend_replaces_code [] sampleSession "a@x.com" "123456" "999999" sampleReg 0
    true false (by decide) (by decide) (by decide) rfl (by decide)

/-- Claim C8 (cancel is idempotent and total): cancel deletes whatever pending-registration and code entries exist for the email and answers success with no precondition failure; cancelling twice in a row answers success both times and leaves the same empty state for that email. -/
theorem cancel_idempotent_total
    (st : Session) (e : String) (he : e ≠ "") :
    (cancel st (some (.vStr e))).1 = .success
      ∧ (cancel (cancel st (some (.vStr e))).2 (some (.vStr e))).1 = .success
      ∧ (cancel st (some (.vStr e))).2.otp e = none
      ∧ (cancel st (some (.vStr e))).2.registration e = none
      ∧ (∀ k : String,
          (cancel (cancel st (some (.vStr e))).2 (some (.vStr e))).2.otp k
              = (cancel st (some (.vStr e))).2.otp k
            ∧ (cancel (cancel st (some (.vStr e))).2 (some (.vStr e))).2.registration k
              = (cancel st (some (.vStr e))).2.registration k) := by
  have he2 : (e == "") = false := beq_eq_false_iff_ne.mpr he
  refine ⟨by simp [cancel, PyVal.truthy, he2], by simp [cancel, PyVal.truthy, he2],
    by simp [cancel, PyVal.truthy, PyVal.toKeyStr, he2, upd],
    by simp [cancel, PyVal.truthy, PyVal.toKeyStr, he2, upd], ?_⟩
  intro k
  constructor <;>
    · simp only [cancel, PyVal.truthy, PyVal.toKeyStr, he2, Bool.not_false, if_false]
      by_cases hk : k = e <;> simp [upd, hk]

/-- Concrete instantiation of the C8 theorem at the sample session. -/
theorem cancel_idempotent_total_witness :
    (cancel sampleSession (some (.vStr "a@x.com"))).1 = .success
      ∧ (cancel (cancel sampleSession (some (.vStr "a@x.com"))).2
          (some (.vStr "a@x.com"))).1 = .success
      ∧ (cancel sampleSession (some (.vStr "a@x.com"))).2.otp "a@x.com" = none
      ∧ (cancel sampleSession (some (.vStr "a@x.com"))).2.registration "a@x.com"
          = none
      ∧ (∀ k : String,
          (cancel (cancel sampleSession (some (.vStr "a@x.com"))).2
              (some (.vStr "a@x.com"))).2.otp k
              = (cancel sampleSession (some (.vStr "a@x.com"))).2.otp k
            ∧ (cancel (cancel sampleSession (some (.vStr "a@x.com"))).2
                (some (.vStr "a@x.com"))).2.registration k
              = (cancel sampleSession (some (.vStr "a@x.com"))).2.registration k) :=
  cancel_idempotent_total sampleSession "a@x.com" (by decide)

/-- Claim C9 (exact string comparison): verify compares the submitted value to the stored code with Python equality, so every value that is not the identical character string, a JSON number with the same digits included, is rejected with the mismatch error. -/
theorem verify_compares_exact_string
    (db : List UserRecord) (st : Session) (e : String) (d : OtpData)
    (now : Nat) (ov : PyVal)
    (he : e ≠ "") (hov : ov.truthy = true)
    (hotp : st.otp e = some d)
    (hexp : now ≤ d.expiry)
    (hneq : pyEqStr ov d.code = false) :
    (verify db st (some (.vStr e)) (some ov) now).result = .codeMismatch
      ∧ (∀ n : Int, pyEqStr (.vInt n) d.code = false) := by
  have he2 : (e == "") = false := beq_eq_false_iff_ne.mpr he
  have hre : reqTruthy (some (PyVal.vStr e)) = true := by
    simp [reqTruthy, PyVal.truthy, he2]
  have hro : reqTruthy (some ov) = true := hov
  have hnx : ¬ (now > d.expiry) := Nat.not_lt.mpr hexp
  refine ⟨?_, fun n => rfl⟩
  simp [verify, hre, hro, PyVal.toKeyStr, hotp, if_neg hnx, hneq]

/-- Concrete instantiation of the C9 theorem: the JSON number 123456 is rejected although the stored code is the string of the same digits. -/
theorem verify_compares_exact_string_witness :
    (verify [] sampleSession (some (.vStr "a@x.com"))
        (some (.vInt 123456)) 0).result = .codeMismatch
      ∧ (∀ n : Int, pyEqStr (.vInt n) sampleOtp.code = false) :=
  verify_compares_exact_string [] sampleSession "a@x.com" sampleOtp 0
    (.vInt 123456) (by decide) (by decide) rfl (by decide) rfl

/-- Claim C10 (atomicity on user-creation failure): when the durable user-creation step raises during verify with a correct, unexpired code, verify answers the 500 branch and leaves both session entries and the user store unchanged, so the verify can be retried with the same code. -/
theorem verify_creation_failure_atomic
    (db : List UserRecord) (st : Session) (e : String) (d : OtpData)
    (r : PendingRegistration) (now : Nat)
    (he : e ≠ "") (hc : d.code ≠ "")
    (hotp : st.otp e = some d) (hreg : st.registration e = some r)
    (hexp : now ≤ d.expiry)
    (hfail : usernameTaken db r.username = true ∨ emailTaken db r.email = true) :
    (verify db st (some (.vStr e)) (some (.vStr d.code)) now).result = .creationError
      ∧ (verify db st (some (.vStr e)) (some (.vStr d.code)) now).result.httpStatus = 500
      ∧ (verify db st (some (.vStr e)) (some (.vStr d.code)) now).session = st
      ∧ (verify db st (some (.vStr e)) (some (.vStr d.code)) now).db = db := by
  have he2 : (e == "") = false := beq_eq_false_iff_ne.mpr he
  have hc2 : (d.code == "") = false := beq_eq_false_iff_ne.mpr hc
  have hnx : ¬ (now > d.expiry) := Nat.not_lt.mpr hexp
  have hcu : create_user db r.username r.email r.password r.first_name r.last_name true true
      = .error () := by
    rcases hfail with h | h <;> simp [create_user, h]
  have hv : verify db st (some (.vStr e)) (some (.vStr d.code)) now =
      ⟨.creationError, st, db⟩ := by
    simp [verify, reqTruthy, PyVal.truthy, PyVal.toKeyStr, he2, hc2, hotp, hreg,
      if_neg hnx, pyEqStr, hcu]
  exact ⟨by rw [hv], by rw [hv]; rfl, by rw [hv], by rw [hv]⟩

/-- Concrete instantiation of the C10 theorem where the pending username was taken after begin-registration. -/
theorem verify_creation_failure_atomic_witness :
    (verify dbWithAlice sampleSession (some (.vStr "a@x.com"))
        (some (.vStr sampleOtp.code)) 0).result = .creationError
      ∧ (verify dbWithAlice sampleSession (some (.vStr "a@x.com"))
          (some (.vStr sampleOtp.code)) 0).result.httpStatus = 500
      ∧ (verify dbWithAlice sampleSession (some (.vStr "a@x.com"))
          (some (.vStr sampleOtp.code)) 0).session = sampleSession
      ∧ (verify dbWithAlice sampleSession (some (.vStr "a@x.com"))
          (some (.vStr sampleOtp.code)) 0).db = dbWithAlice :=
  verify_creation_failure_atomic dbWithAlice sampleSession "a@x.com" sampleOtp
    sampleReg 0 (by decide) (by decide) rfl rfl (by decide) (Or.inl (by decide))

end BCA
